import Mathlib

/-!
Verification of the Perl language-server adapter
(`src/solidlsp/language_servers/perl_language_server.py`).

The Python module is embedded shallowly: JSON payloads become an inductive
`JValue`, the two `threading.Event` readiness flags become a record of
booleans with set-once semantics, subprocess invocations become explicit
trace elements, and each function of the module becomes a Lean function
over these types.  Machine effects (logging, process spawning, PATH lookup)
are made explicit as returned data so that the theorems can speak about
them.
-/

namespace PerlLS

/-- JSON-like values, as produced by the LSP transport and consumed by the
Python handlers (`dict`, `int`, `str`, `bool`, lists, `None`). -/
inductive JValue where
  | jnull
  | jbool (b : Bool)
  | jint (n : Int)
  | jstr (s : String)
  | jarr (xs : List JValue)
  | jobj (fields : List (String × JValue))

/-- Lookup of a key in an association list, modelling Python `dict`
indexing / membership (`k in d`, `d[k]`, `d.get(k)`).  Python dicts have
unique keys, so first-match lookup is faithful. -/
def alookup {α : Type} : List (String × α) → String → Option α
  | [], _ => none
  | (k, v) :: rest, key => if k = key then some v else alookup rest key

/-- Boolean test that `needle` is a prefix of `hay` (on character lists). -/
def isPrefixL : List Char → List Char → Bool
  | [], _ => true
  | _ :: _, [] => false
  | c :: cs, d :: ds => c == d && isPrefixL cs ds

/-- Boolean test that `needle` occurs contiguously inside `hay`, modelling
the Python substring test `needle in hay`. -/
def isInfixL (needle : List Char) : List Char → Bool
  | [] => needle.isEmpty
  | d :: ds => isPrefixL needle (d :: ds) || isInfixL needle ds

/-- Substring containment on strings: Python `needle in hay`. -/
def strContains (hay needle : String) : Bool :=
  isInfixL needle.data hay.data

/-- ASCII lowercasing of one character (`A`-`Z` map to `a`-`z`). -/
def lowerChar (c : Char) : Char :=
  if 65 ≤ c.toNat ∧ c.toNat ≤ 90 then Char.ofNat (c.toNat + 32) else c

/-- Python `str.lower()` (the readiness keywords and the log messages the
heuristic inspects are ASCII, where the two functions agree). -/
def toLowerStr (s : String) : String :=
  ⟨s.data.map lowerChar⟩

/-- Splits a character list at every occurrence of `sep`, keeping empty
pieces, modelling Python `str.split(sep)` for a one-character separator. -/
def splitCharAux (sep : Char) : List Char → List Char → List (List Char)
  | [], acc => [acc.reverse]
  | c :: rest, acc =>
    if c == sep then acc.reverse :: splitCharAux sep rest []
    else splitCharAux sep rest (c :: acc)

/-- Splits a string at every occurrence of the character `sep`. -/
def splitOnChar (sep : Char) (s : String) : List String :=
  (splitCharAux sep s.data []).map (fun cs => ⟨cs⟩)

/-- The single-quote character as a string (kept out of string literals). -/
def sq : String := ⟨[Char.ofNat 39]⟩

/-! ## Readiness detection (`__init__`, `window_log_message`,
`progress_handler`, and the timeout fallback of `_start_server`) -/

/-- The two `threading.Event` flags used by the readiness heuristics:
`self.analysis_complete` (created in `__init__`) and
`self.completions_available` (inherited).  A `threading.Event` is a
set-once-style latch: `set()` turns it true and nothing in this module
ever clears it. -/
structure ReadinessFlags where
  analysis_complete : Bool
  completions_available : Bool
deriving Repr, DecidableEq

/-- Both events start unset (`threading.Event()` in `__init__`). -/
def initFlags : ReadinessFlags := ⟨false, false⟩

/-- A readiness state is terminal once both events are set: this is the
state the startup sequence gates on (`ready` / `ready-by-timeout`). -/
def terminal (st : ReadinessFlags) : Prop :=
  st.analysis_complete = true ∧ st.completions_available = true

/-- The fixed keyword allowlist of `window_log_message`. -/
def readiness_keywords : List String := ["ready", "initialized", "startup complete"]

/-- Python `any(keyword in message_text.lower() for keyword in [...])`. -/
def containsReadinessKeyword (message_text : String) : Bool :=
  readiness_keywords.any (fun k => isInfixL k.data (toLowerStr message_text).data)

/-- Handler for `window/logMessage`: reads `msg.get("message", "")` and on
a keyword hit sets both readiness events.  Logging has no state effect and
is omitted.  Only string-valued fields of the payload are ever read, so
the payload is modelled as a string-valued record. -/
def window_log_message (st : ReadinessFlags) (msg : List (String × String)) : ReadinessFlags :=
  let message_text := (alookup msg "message").getD ""
  if containsReadinessKeyword message_text then
    { st with analysis_complete := true, completions_available := true }
  else st

/-- The condition checked by `progress_handler`: `params` has a `value`
object whose `"kind"` equals `"end"` (Python `"value" in params` followed
by `value.get("kind") == "end"`; the comparison with the string `"end"`
is false for every non-string kind). -/
def progressEndP (params : List (String × JValue)) : Bool :=
  match alookup params "value" with
  | some (JValue.jobj value) =>
    match alookup value "kind" with
    | some (JValue.jstr kind) => kind = "end"
    | _ => false
  | _ => false

/-- Handler for `$/progress`: when the end-of-progress condition holds,
both readiness events are set. -/
def progress_handler (st : ReadinessFlags) (params : List (String × JValue)) : ReadinessFlags :=
  if progressEndP params then
    { st with analysis_complete := true, completions_available := true }
  else st

/-- Handler for `textDocument/publishDiagnostics` (`do_nothing`). -/
def do_nothing (st : ReadinessFlags) (_params : List (String × JValue)) : ReadinessFlags :=
  st

/-- A readiness-relevant occurrence during startup: one of the handled
notifications, or expiry of the 30-second wait. -/
inductive Signal where
  | logMessage (msg : List (String × String))
  | progress (params : List (String × JValue))
  | publishDiagnostics (params : List (String × JValue))
  | timeout

/-- Dispatch of one signal to its handler.  Timeout expiry runs the
fallback branch of `_start_server`, which sets both events. -/
def applySignal (st : ReadinessFlags) : Signal → ReadinessFlags
  | Signal.logMessage msg => window_log_message st msg
  | Signal.progress params => progress_handler st params
  | Signal.publishDiagnostics params => do_nothing st params
  | Signal.timeout => { st with analysis_complete := true, completions_available := true }

/-- Whether a signal triggers the terminal transition when it fires. -/
def qualifies : Signal → Bool
  | Signal.logMessage msg => containsReadinessKeyword ((alookup msg "message").getD "")
  | Signal.progress params => progressEndP params
  | Signal.publishDiagnostics _ => false
  | Signal.timeout => true

/-- Folds a sequence of delivered signals over the initial state. -/
def runSignals (sigs : List Signal) : ReadinessFlags :=
  sigs.foldl applySignal initFlags

/-- Outcome of the `analysis_complete.wait(timeout=30.0)` phase of
`_start_server`: the final flags and whether the timeout warning was
logged. -/
structure WaitOutcome where
  state : ReadinessFlags
  warned : Bool
deriving Repr, DecidableEq

/-- The wait phase: `wait` returns true exactly when the event is already
set (some heuristic fired within the window); otherwise the fallback logs
a warning and sets both events.  Either way control returns normally. -/
def indexing_wait (st : ReadinessFlags) : WaitOutcome :=
  if st.analysis_complete then ⟨st, false⟩
  else ⟨⟨true, true⟩, true⟩

/-! ## Handshake validation (`_start_server`, lines 358-385) -/

/-- Capability validation performed on the `initialize` response.  Each
failing Python `assert` (or the `TypeError` raised by membership tests on
a non-dict `capabilities` value) is modelled as an error result; the
handshake proceeds exactly when this returns `ok`. -/
def validateInitResponse (init_response : List (String × JValue)) : Except String Unit :=
  match alookup init_response "capabilities" with
  | none => Except.error "assert failed: capabilities not in init_response"
  | some (JValue.jobj capabilities) =>
    match alookup capabilities "textDocumentSync" with
    | none => Except.error "assert failed: textDocumentSync not in capabilities"
    | some text_document_sync =>
      match text_document_sync with
      | JValue.jint n =>
        if n = 1 ∨ n = 2 then Except.ok ()
        else Except.error "Unexpected textDocumentSync value"
      | JValue.jbool b =>
        -- Python bool is an int: True == 1 is in [1, 2], False == 0 is not.
        if b then Except.ok ()
        else Except.error "Unexpected textDocumentSync value"
      | JValue.jobj fields =>
        if (alookup fields "change").isSome || (alookup fields "openClose").isSome then
          Except.ok ()
        else Except.error "textDocumentSync should have expected properties"
      | _ => Except.ok ()
  | some _ => Except.error "capabilities value does not support membership tests"

/-- Values of `textDocumentSync` that fall through both `isinstance`
branches of the validation (neither an int — Python bools included — nor
a dict): no check at all is performed on them. -/
def tdsUnchecked : JValue → Bool
  | JValue.jstr _ => true
  | JValue.jnull => true
  | JValue.jarr _ => true
  | _ => false

/-- Result of a successful `_start_server` run: final readiness flags and
whether the timeout warning was logged. -/
structure StartResult where
  state : ReadinessFlags
  warned : Bool
deriving Repr, DecidableEq

/-- The observable behaviour of `_start_server` given the `initialize`
response and the readiness signals delivered before the wait expires:
validation failures abort (a failed `assert` raises); otherwise the
delivered signals drive the readiness events and the wait phase runs. -/
def startServer (init_response : List (String × JValue)) (incoming : List Signal) :
    Except String StartResult :=
  match validateInitResponse init_response with
  | Except.error e => Except.error e
  | Except.ok () =>
    let out := indexing_wait (runSignals incoming)
    Except.ok ⟨out.state, out.warned⟩

/-! ## Effect order of `_start_server` (lines 340-355) -/

/-- One observable step of the straight-line prefix of `_start_server`. -/
inductive StartAction where
  | onRequest (method : String)
  | onNotification (method : String)
  | processStart
  | sendInitialize
  | sendInitialized
  | waitForIndexing
deriving Repr, DecidableEq, Inhabited

/-- Whether an action registers a notification or request handler. -/
def isHandlerRegistration : StartAction → Bool
  | StartAction.onRequest _ => true
  | StartAction.onNotification _ => true
  | _ => false

/-- The actions of `_start_server` in program order: the five handler
registrations, then `self.server.start()`, then the `initialize` request,
the `initialized` notification, and the indexing wait.  (The statements up
to and including the `initialize` send are unconditional straight-line
code.) -/
def startServerActions : List StartAction :=
  [ StartAction.onRequest "client/registerCapability",
    StartAction.onNotification "window/logMessage",
    StartAction.onRequest "workspace/executeClientCommand",
    StartAction.onNotification "$/progress",
    StartAction.onNotification "textDocument/publishDiagnostics",
    StartAction.processStart,
    StartAction.sendInitialize,
    StartAction.sendInitialized,
    StartAction.waitForIndexing ]

/-! ## Workspace filter policy (`is_ignored_dirname`,
`_get_perl_exclude_patterns`) -/

/-- The Perl-specific directory basenames of `is_ignored_dirname`. -/
def perl_ignored_dirs : List String :=
  [ "blib", ".build", "cover_db", "nytprof", "nytprof.out", "_build",
    "local", ".carton", ".cpanm", "fatlib", "perl5", "extlib", "inc",
    "share", "xt" ]

/-- The glob patterns returned by `_get_perl_exclude_patterns`. -/
def perl_exclude_patterns : List String :=
  [ "**/blib/**", "**/.build/**", "**/cover_db/**", "**/nytprof/**",
    "**/nytprof.out", "**/_build/**", "**/local/**", "**/.carton/**",
    "**/.cpanm/**", "**/fatlib/**", "**/perl5/**", "**/extlib/**",
    "**/xt/**", "**/.git/**", "**/node_modules/**" ]

/-- Splits a slash-separated glob pattern or path into its segments. -/
def splitSegs (s : String) : List String :=
  splitOnChar '/' s

/-- Segment-wise glob matching: a `**` segment matches any (possibly
empty) run of path segments; every other segment must match literally
(the pattern lists above use no intra-segment wildcards). -/
def globMatch : List String → List String → Bool
  | [], path => path.isEmpty
  | p :: ps, path =>
    if p = "**" then
      path.tails.any (fun suffix => globMatch ps suffix)
    else
      match path with
      | [] => false
      | seg :: rest => (p == seg) && globMatch ps rest

/-- Pattern `p` matches every path lying under a directory named `b`, at
any nesting depth: for all path prefixes and all nonempty remainders, the
path `pre/b/suf` matches. -/
def matchesUnder (p b : String) : Prop :=
  ∀ pre suf : List String, suf ≠ [] → globMatch (splitSegs p) (pre ++ b :: suf) = true

/-! ## Dependency installer (`_install_perl_language_server`) -/

/-- One external-process invocation: argument vector plus the text fed to
its standard input (`input=` of `subprocess.run`). -/
structure Invocation where
  cmd : List String
  stdin_text : Option String
deriving Repr, DecidableEq

/-- The environment an installation attempt runs in: whether `cpanm` is on
the search path, whether each tool's invocation exits successfully, and
the diagnostics of a failing cpan run (`e.stderr` and `str(e)`). -/
structure InstallEnv where
  cpanm_path : Option String
  cpanm_succeeds : Bool
  cpan_succeeds : Bool
  cpan_stderr : String
  cpan_exc_str : String
deriving Repr, DecidableEq

/-- The `cpanm Perl::LanguageServer` invocation. -/
def cpanmInvocation (cpanm_path : String) : Invocation :=
  ⟨[cpanm_path, "Perl::LanguageServer"], none⟩

/-- The `perl -MCPAN -e "install Perl::LanguageServer"` invocation with
its non-interactive confirmation input. -/
def cpanInvocation (perl_path : String) : Invocation :=
  ⟨[perl_path, "-MCPAN", "-e", "install Perl::LanguageServer"], some "yes\n"⟩

/-- The message of the `RuntimeError` raised when the cpan fallback also
fails, built exactly as in the source (`e.stderr if e.stderr else str(e)`
is passed in as `error_msg`). -/
def installErrorMessage (error_msg : String) : String :=
  "Failed to install Perl::LanguageServer: " ++ error_msg ++
  "\nPlease try installing manually:\n" ++
  "  - Using cpanm: cpanm Perl::LanguageServer\n" ++
  "  - Using cpan: perl -MCPAN -e " ++ sq ++ "install Perl::LanguageServer" ++ sq ++ "\n" ++
  "  - Check https://metacpan.org/pod/Perl::LanguageServer for more details"

/-- The cpan fallback branch of `_install_perl_language_server`. -/
def cpanPhase (perl_path : String) (env : InstallEnv) : List Invocation × Except String Unit :=
  if env.cpan_succeeds then ([cpanInvocation perl_path], Except.ok ())
  else
    ([cpanInvocation perl_path],
     Except.error (installErrorMessage
       (if env.cpan_stderr = "" then env.cpan_exc_str else env.cpan_stderr)))

/-- Installation of `Perl::LanguageServer`: try `cpanm` first when it is
on the search path; on its absence or failure fall back to
`perl -MCPAN`.  Returns the ordered invocation trace and the result. -/
def installPerlLanguageServer (perl_path : String) (env : InstallEnv) :
    List Invocation × Except String Unit :=
  match env.cpanm_path with
  | some cpanm_path =>
    if env.cpanm_succeeds then ([cpanmInvocation cpanm_path], Except.ok ())
    else
      let r := cpanPhase perl_path env
      (cpanmInvocation cpanm_path :: r.1, r.2)
  | none => cpanPhase perl_path env

/-! ## Launch command builder (`_get_perl_language_server_command`,
`_check_perl_language_server_installed`) -/

/-- The availability probe run by `_check_perl_language_server_installed`:
`perl -MPerl::LanguageServer -e "print $Perl::LanguageServer::VERSION"`. -/
def perlLSCheckInvocation (perl_path : String) : Invocation :=
  ⟨[perl_path, "-MPerl::LanguageServer", "-e", "print $Perl::LanguageServer::VERSION"], none⟩

/-- Environment for the command builder: whether the availability probe
exits with code zero, and the installer's environment. -/
structure CheckEnv where
  check_returncode_zero : Bool
  install_env : InstallEnv
deriving Repr, DecidableEq

/-- The command string returned by `_get_perl_language_server_command`. -/
def perlLSCommand (perl_path : String) : String :=
  perl_path ++ " -MPerl::LanguageServer -e " ++ sq ++ "Perl::LanguageServer::run()" ++ sq ++
  " -- --stdio --version 2.6.0"

/-- Modelled from the spec: the illustrative launch-command shape of
section 6, `<runtime> -M<EnginePackage> -e <q><EnginePackage>::run()<q>
-- --stdio --version <pinned-version>` with single quotes around the
inline program. -/
def launchShape (runtime enginePkg pin : String) : String :=
  runtime ++ " -M" ++ enginePkg ++ " -e " ++ sq ++ enginePkg ++ "::run()" ++ sq ++
  " -- --stdio --version " ++ pin

/-- The command builder, with its process effects made explicit: it always
runs the availability probe, runs the installer when the probe fails, and
returns the launch command string.  Returns the ordered invocation trace
(the probe plus any installer invocations) and the result. -/
def getPerlLanguageServerCommand (perl_path : String) (env : CheckEnv) :
    List Invocation × Except String String :=
  if env.check_returncode_zero then
    ([perlLSCheckInvocation perl_path], Except.ok (perlLSCommand perl_path))
  else
    let r := installPerlLanguageServer perl_path env.install_env
    (perlLSCheckInvocation perl_path :: r.1,
     match r.2 with
     | Except.ok () => Except.ok (perlLSCommand perl_path)
     | Except.error e => Except.error e)

/-! ## Toolchain locator (`_find_perl_executable`) -/

/-- The `RuntimeError` message raised when perl is not on the search
path, listing the manual installation methods. -/
def perlNotFoundMessage : String :=
  "Perl is not installed or not found in PATH. Please install Perl using one of these methods:\n" ++
  "  - System package manager (brew install perl, apt install perl, yum install perl, etc.)\n" ++
  "  - From source: https://www.perl.org/get.html\n" ++
  "  - Using perlbrew: curl -L https://install.perlbrew.pl | bash && perlbrew install perl-5.38.0\n" ++
  "  - Using plenv: git clone https://github.com/tokuhirom/plenv.git ~/.plenv"

/-- The locator: `shutil.which("perl")` is abstracted as the function
`which`; a `None` result (and, per Python truthiness, an empty path) is
the not-found case.  Returns the list of names searched (its only effect)
and the result. -/
def findPerlExecutable (which : String → Option String) : List String × Except String String :=
  (["perl"],
   match which "perl" with
   | some perl_path =>
     if perl_path.isEmpty then Except.error perlNotFoundMessage
     else Except.ok perl_path
   | none => Except.error perlNotFoundMessage)

/-- Counts the bullet lines (manual installation methods) of an error
message: the lines starting with two spaces, a dash and a space. -/
def installMethodCount (msg : String) : Nat :=
  (splitCharAux (Char.ofNat 10) msg.data []).countP
    (fun line => isPrefixL "  - ".data line)

/-! ## Helper lemmas -/

lemma isPrefixL_append (n c : List Char) : isPrefixL n (n ++ c) = true := by
  induction n with
  | nil => rfl
  | cons x xs ih => simp [isPrefixL, ih]

lemma isInfixL_append_self (n c : List Char) : isInfixL n (n ++ c) = true := by
  cases n with
  | nil => cases c <;> simp [isInfixL, isPrefixL]
  | cons x xs =>
    simp only [List.cons_append, isInfixL, Bool.or_eq_true]
    left
    simpa [List.cons_append] using isPrefixL_append (x :: xs) c

lemma isInfixL_of_middle (a n c : List Char) : isInfixL n (a ++ (n ++ c)) = true := by
  induction a with
  | nil => simpa using isInfixL_append_self n c
  | cons x rest ih =>
    simp only [List.cons_append, isInfixL, Bool.or_eq_true]
    right
    exact ih

lemma strContains_middle (a n c : String) : strContains (a ++ (n ++ c)) n = true := by
  simp only [strContains, String.data_append]
  exact isInfixL_of_middle a.data n.data c.data

lemma isPrefixL_mono : ∀ (n b c : List Char), isPrefixL n b = true → isPrefixL n (b ++ c) = true
  | [], _, _, _ => rfl
  | _ :: _, [], _, h => by simp [isPrefixL] at h
  | x :: xs, y :: ys, c, h => by
    simp only [List.cons_append, isPrefixL, Bool.and_eq_true] at h ⊢
    exact ⟨h.1, isPrefixL_mono xs ys c h.2⟩

lemma isInfixL_nil_needle (hay : List Char) : isInfixL [] hay = true := by
  cases hay <;> simp [isInfixL, isPrefixL]

lemma isInfixL_append_left (n b : List Char) (h : isInfixL n b = true) (a : List Char) :
    isInfixL n (a ++ b) = true := by
  induction a with
  | nil => simpa
  | cons x rest ih =>
    simp only [List.cons_append, isInfixL, Bool.or_eq_true]
    right
    exact ih

lemma isInfixL_append_right (n : List Char) : ∀ (a c : List Char),
    isInfixL n a = true → isInfixL n (a ++ c) = true
  | [], c, h => by
    have hn : n = [] := by
      cases n with
      | nil => rfl
      | cons x xs => simp [isInfixL, List.isEmpty] at h
    subst hn
    exact isInfixL_nil_needle c
  | x :: rest, c, h => by
    simp only [isInfixL, Bool.or_eq_true] at h
    simp only [List.cons_append, isInfixL, Bool.or_eq_true]
    rcases h with h | h
    · left
      simpa [List.cons_append] using isPrefixL_mono n (x :: rest) c h
    · right
      exact isInfixL_append_right n rest c h

lemma strContains_append_right (a b n : String) (h : strContains b n = true) :
    strContains (a ++ b) n = true := by
  simp only [strContains, String.data_append]
  exact isInfixL_append_left n.data b.data h a.data

lemma strContains_append_left (a b n : String) (h : strContains a n = true) :
    strContains (a ++ b) n = true := by
  simp only [strContains, String.data_append]
  exact isInfixL_append_right n.data a.data b.data h

lemma strContains_installErrorMessage (em : String) :
    strContains (installErrorMessage em) em = true ∧
    strContains (installErrorMessage em) "Using cpanm: cpanm Perl::LanguageServer" = true ∧
    strContains (installErrorMessage em) "Using cpan: perl -MCPAN -e " = true := by
  refine ⟨?_, ?_, ?_⟩
  · simp only [installErrorMessage, strContains, String.data_append, List.append_assoc]
    exact isInfixL_of_middle _ _ _
  · simp only [installErrorMessage]
    apply strContains_append_left
    apply strContains_append_left
    apply strContains_append_left
    apply strContains_append_left
    apply strContains_append_left
    apply strContains_append_left
    apply strContains_append_right
    decide
  · simp only [installErrorMessage]
    apply strContains_append_left
    apply strContains_append_left
    apply strContains_append_left
    apply strContains_append_left
    apply strContains_append_left
    apply strContains_append_right
    decide

lemma perlLSCommand_eq_launchShape (perl_path : String) :
    perlLSCommand perl_path = launchShape perl_path "Perl::LanguageServer" "2.6.0" := by
  apply String.ext
  simp only [perlLSCommand, launchShape, String.data_append, List.append_assoc]
  congr 1

lemma applySignal_eq (st : ReadinessFlags) (s : Signal) :
    applySignal st s = if qualifies s then ⟨true, true⟩ else st := by
  cases s with
  | logMessage msg =>
    simp only [applySignal, window_log_message, qualifies]
  | progress params =>
    simp only [applySignal, progress_handler, qualifies]
  | publishDiagnostics params => simp [applySignal, do_nothing, qualifies]
  | timeout => simp [applySignal, qualifies]

lemma applySignal_of_terminal (st : ReadinessFlags) (s : Signal) (h : terminal st) :
    applySignal st s = st := by
  obtain ⟨h1, h2⟩ := h
  rcases st with ⟨a, c⟩
  cases h1
  cases h2
  rw [applySignal_eq]
  split <;> rfl

lemma foldl_applySignal_diag (sigs : List Signal) : ∀ b : Bool,
    sigs.foldl applySignal ⟨b, b⟩ = ⟨b || sigs.any qualifies, b || sigs.any qualifies⟩ := by
  induction sigs with
  | nil => intro b; simp
  | cons s rest ih =>
    intro b
    simp only [List.foldl_cons, List.any_cons]
    rw [applySignal_eq]
    cases hq : qualifies s
    · simp only [Bool.false_eq_true, if_false]
      rw [ih b]
      simp
    · simp only [if_true]
      rw [ih true]
      simp

lemma runSignals_eq (sigs : List Signal) :
    runSignals sigs = ⟨sigs.any qualifies, sigs.any qualifies⟩ := by
  simpa [runSignals, initFlags] using foldl_applySignal_diag sigs false

lemma globMatch_doubleStar_any (l : List String) : globMatch ["**"] l = true := by
  have h1 : globMatch ["**"] l = (l.tails.any fun suffix => globMatch [] suffix) := rfl
  rw [h1, List.any_eq_true]
  exact ⟨[], (List.mem_tails _ _).mpr List.nil_suffix, rfl⟩

lemma globMatch_cons_self (b : String) (suf : List String) :
    globMatch [b, "**"] (b :: suf) = true := by
  by_cases hb : b = "**"
  · subst hb
    have h1 : globMatch ["**", "**"] ("**" :: suf) =
        (("**" :: suf).tails.any fun s => globMatch ["**"] s) := rfl
    rw [h1, List.any_eq_true]
    exact ⟨[], (List.mem_tails _ _).mpr List.nil_suffix, globMatch_doubleStar_any []⟩
  · have h1 : globMatch [b, "**"] (b :: suf) =
        if b = "**" then ((b :: suf).tails.any fun s => globMatch ["**"] s)
        else (b == b) && globMatch ["**"] suf := rfl
    rw [h1, if_neg hb]
    simp [globMatch_doubleStar_any]

lemma globMatch_under (b : String) (pre suf : List String) :
    globMatch ["**", b, "**"] (pre ++ b :: suf) = true := by
  have h1 : globMatch ["**", b, "**"] (pre ++ b :: suf) =
      ((pre ++ b :: suf).tails.any fun s => globMatch [b, "**"] s) := rfl
  rw [h1, List.any_eq_true]
  exact ⟨b :: suf, (List.mem_tails _ _).mpr (List.suffix_append _ _), globMatch_cons_self b suf⟩

lemma matchesUnder_of_splitSegs (p b : String) (h : splitSegs p = ["**", b, "**"]) :
    matchesUnder p b := by
  intro pre suf _
  rw [h]
  exact globMatch_under b pre suf

/-! ## Claim theorems -/

/-- C1: for every ordering of the readiness signals (a qualifying
`window/logMessage`, a `$/progress` end event, the timeout expiry), the
readiness state reaches the terminal value exactly once — the first
qualifying signal makes the state terminal, any later signal is a no-op
leaving the state unchanged, and the state never reverts from a terminal
value. -/
theorem C1_readiness_terminal_once :
    (∀ s : Signal, qualifies s = true → terminal (applySignal initFlags s)) ∧
    (∀ (st : ReadinessFlags) (s : Signal), terminal st → applySignal st s = st) ∧
    (∀ (first : Signal) (later : List Signal), qualifies first = true →
      later.foldl applySignal (applySignal initFlags first) = applySignal initFlags first) := by
  refine ⟨?_, ?_, ?_⟩
  · intro s hq
    rw [applySignal_eq, if_pos hq]
    exact ⟨rfl, rfl⟩
  · exact fun st s h => applySignal_of_terminal st s h
  · intro first later hq
    rw [applySignal_eq, if_pos hq, foldl_applySignal_diag later true]
    simp

/-- Witness for C1 at the concrete ordering of the spec example: a
qualifying log message first, then a progress end event and the timeout,
which are no-ops. -/
theorem C1_witness :
    terminal (applySignal initFlags (Signal.logMessage [("message", "Perl::LanguageServer ready")])) ∧
    List.foldl applySignal
      (applySignal initFlags (Signal.logMessage [("message", "Perl::LanguageServer ready")]))
      [Signal.progress [("value", JValue.jobj [("kind", JValue.jstr "end")])], Signal.timeout] =
    applySignal initFlags (Signal.logMessage [("message", "Perl::LanguageServer ready")]) :=
  ⟨C1_readiness_terminal_once.1 _ (by decide),
   C1_readiness_terminal_once.2.2 _ _ (by decide)⟩

/-- C2: the timeout fallback fires if and only if no heuristic fired
within the wait window — given a valid handshake, `_start_server` returns
successfully (never raises at the wait), its warning is logged exactly
when no delivered notification qualified, and the final readiness state
is terminal either way. -/
theorem C2_timeout_fallback :
    ∀ (init_response : List (String × JValue)) (sigs : List Signal),
      validateInitResponse init_response = Except.ok () →
      Signal.timeout ∉ sigs →
      ∃ r : StartResult, startServer init_response sigs = Except.ok r ∧
        (r.warned = true ↔ sigs.any qualifies = false) ∧
        terminal r.state := by
  intro resp sigs hv _
  refine ⟨⟨(indexing_wait (runSignals sigs)).state, (indexing_wait (runSignals sigs)).warned⟩,
    ?_, ?_, ?_⟩
  · simp [startServer, hv]
  · rw [runSignals_eq]
    cases h : sigs.any qualifies <;> simp [indexing_wait]
  · rw [runSignals_eq]
    cases h : sigs.any qualifies <;> simp [indexing_wait, terminal]

/-- Witness for C2: a valid initialize response and no delivered signals;
the fallback fires and startup still succeeds. -/
theorem C2_witness :
    ∃ r : StartResult,
      startServer [("capabilities", JValue.jobj [("textDocumentSync", JValue.jint 1)])] [] =
        Except.ok r ∧
      (r.warned = true ↔ List.any [] qualifies = false) ∧
      terminal r.state :=
  C2_timeout_fallback _ _ rfl (by simp)

/-- C3: handshake validation is strict on the mandatory field and lenient
on optional ones — every response whose capabilities carry
`textDocumentSync = 1` and no `completionProvider` validates, and every
response whose capabilities lack `textDocumentSync` fails validation. -/
theorem C3_handshake_validation :
    (∀ (resp caps : List (String × JValue)),
      alookup resp "capabilities" = some (JValue.jobj caps) →
      alookup caps "textDocumentSync" = some (JValue.jint 1) →
      alookup caps "completionProvider" = none →
      validateInitResponse resp = Except.ok ()) ∧
    (∀ (resp caps : List (String × JValue)),
      alookup resp "capabilities" = some (JValue.jobj caps) →
      alookup caps "textDocumentSync" = none →
      ∃ e, validateInitResponse resp = Except.error e) := by
  constructor
  · intro resp caps h1 h2 _
    simp [validateInitResponse, h1, h2]
  · intro resp caps h1 h2
    refine ⟨"assert failed: textDocumentSync not in capabilities", ?_⟩
    simp [validateInitResponse, h1, h2]

/-- Witness for C3 at the two concrete responses of the claim. -/
theorem C3_witness :
    validateInitResponse [("capabilities", JValue.jobj [("textDocumentSync", JValue.jint 1)])] =
      Except.ok () ∧
    ∃ e, validateInitResponse [("capabilities", JValue.jobj [("hoverProvider", JValue.jbool true)])] =
      Except.error e :=
  ⟨C3_handshake_validation.1 _ [("textDocumentSync", JValue.jint 1)] rfl rfl rfl,
   C3_handshake_validation.2 _ [("hoverProvider", JValue.jbool true)] rfl rfl⟩

/-- C4: in `_start_server` all five notification/request handlers are
registered strictly before the process is started and before the
initialize request is sent: the filtered registration actions are exactly
the five handlers, and every registration index precedes the indices of
`processStart` and `sendInitialize`. -/
theorem C4_registration_order :
    startServerActions.filter isHandlerRegistration =
      [StartAction.onRequest "client/registerCapability",
       StartAction.onNotification "window/logMessage",
       StartAction.onRequest "workspace/executeClientCommand",
       StartAction.onNotification "$/progress",
       StartAction.onNotification "textDocument/publishDiagnostics"] ∧
    (∀ i, i < startServerActions.length →
      isHandlerRegistration (startServerActions[i]!) = true →
      ∀ j, j < startServerActions.length →
      (startServerActions[j]! = StartAction.processStart ∨
       startServerActions[j]! = StartAction.sendInitialize) →
      i < j) := by decide

/-- Witness for C4: the first registration precedes both the process
start (index 5) and the initialize send (index 6). -/
theorem C4_witness :
    isHandlerRegistration (startServerActions[0]!) = true ∧
    startServerActions[5]! = StartAction.processStart ∧
    startServerActions[6]! = StartAction.sendInitialize ∧
    (0 : Nat) < 5 ∧ (0 : Nat) < 6 :=
  ⟨by decide, by decide, by decide,
   C4_registration_order.2 0 (by decide) (by decide) 5 (by decide) (by decide),
   C4_registration_order.2 0 (by decide) (by decide) 6 (by decide) (by decide)⟩

/-- C5 counterexample: the claim that every basename in the exclusion
list has a matching glob pattern is false — the basename `inc` is in the
exclusion list, but no pattern in the list matches the path `inc/x`
directly under an `inc` directory. -/
theorem C5_counterexample :
    ¬ (∀ b ∈ perl_ignored_dirs, ∃ p ∈ perl_exclude_patterns, matchesUnder p b) := by
  intro h
  obtain ⟨p, hp, hm⟩ := h "inc" (by decide)
  have h2 : globMatch (splitSegs p) (([] : List String) ++ "inc" :: ["x"]) = true :=
    hm [] ["x"] (by simp)
  have h3 : ∀ q ∈ perl_exclude_patterns, globMatch (splitSegs q) ["inc", "x"] = false := by decide
  have h4 := h3 p hp
  rw [List.nil_append] at h2
  rw [h2] at h4
  simp at h4

/-- C5 (amended): for every directory basename in the Perl-specific
exclusion list except `inc`, `share` and `nytprof.out`, there is a glob
pattern in `_get_perl_exclude_patterns` matching paths under a directory
of that basename at any nesting depth. -/
theorem C5_filter_completeness_amended :
    ∀ b ∈ perl_ignored_dirs, b ∉ (["inc", "share", "nytprof.out"] : List String) →
      ∃ p ∈ perl_exclude_patterns, matchesUnder p b := by
  intro b hb hnot
  simp only [perl_ignored_dirs, List.mem_cons, List.not_mem_nil, or_false] at hb
  rcases hb with rfl | rfl | rfl | rfl | rfl | rfl | rfl | rfl | rfl | rfl | rfl | rfl | rfl | rfl | rfl
  · exact ⟨"**/blib/**", by decide, matchesUnder_of_splitSegs _ _ (by decide)⟩
  · exact ⟨"**/.build/**", by decide, matchesUnder_of_splitSegs _ _ (by decide)⟩
  · exact ⟨"**/cover_db/**", by decide, matchesUnder_of_splitSegs _ _ (by decide)⟩
  · exact ⟨"**/nytprof/**", by decide, matchesUnder_of_splitSegs _ _ (by decide)⟩
  · exact absurd (by decide) hnot
  · exact ⟨"**/_build/**", by decide, matchesUnder_of_splitSegs _ _ (by decide)⟩
  · exact ⟨"**/local/**", by decide, matchesUnder_of_splitSegs _ _ (by decide)⟩
  · exact ⟨"**/.carton/**", by decide, matchesUnder_of_splitSegs _ _ (by decide)⟩
  · exact ⟨"**/.cpanm/**", by decide, matchesUnder_of_splitSegs _ _ (by decide)⟩
  · exact ⟨"**/fatlib/**", by decide, matchesUnder_of_splitSegs _ _ (by decide)⟩
  · exact ⟨"**/perl5/**", by decide, matchesUnder_of_splitSegs _ _ (by decide)⟩
  · exact ⟨"**/extlib/**", by decide, matchesUnder_of_splitSegs _ _ (by decide)⟩
  · exact absurd (by decide) hnot
  · exact absurd (by decide) hnot
  · exact ⟨"**/xt/**", by decide, matchesUnder_of_splitSegs _ _ (by decide)⟩

/-- Witness for C5 at the basename `blib`. -/
theorem C5_witness : ∃ p ∈ perl_exclude_patterns, matchesUnder p "blib" :=
  C5_filter_completeness_amended "blib" (by decide) (by decide)

/-- C6: the installation fallback order is deterministic — whenever the
primary tool (cpanm) is absent from the search path or fails, the
secondary path (`perl -MCPAN` with confirmation input `yes` + newline)
is the last invocation attempted before any error; whenever an error is
raised at all, the secondary was attempted; and when both paths fail the
raised message carries the captured error output of the last attempt and
at least two manual-remediation instructions. -/
theorem C6_install_fallback :
    ∀ (perl_path : String) (env : InstallEnv),
      ((env.cpanm_path = none ∨ env.cpanm_succeeds = false) →
        (installPerlLanguageServer perl_path env).1.getLast? = some (cpanInvocation perl_path) ∧
        (cpanInvocation perl_path).stdin_text = some "yes\n") ∧
      (∀ msg, (installPerlLanguageServer perl_path env).2 = Except.error msg →
        cpanInvocation perl_path ∈ (installPerlLanguageServer perl_path env).1) ∧
      ((env.cpanm_path = none ∨ env.cpanm_succeeds = false) → env.cpan_succeeds = false →
        ∃ msg, (installPerlLanguageServer perl_path env).2 = Except.error msg ∧
          strContains msg (if env.cpan_stderr = "" then env.cpan_exc_str else env.cpan_stderr) = true ∧
          strContains msg "Using cpanm: cpanm Perl::LanguageServer" = true ∧
          strContains msg "Using cpan: perl -MCPAN -e " = true) := by
  intro perl_path env
  obtain ⟨cp, cs, ks, sd, se⟩ := env
  refine ⟨?_, ?_, ?_⟩
  · intro h
    cases cp with
    | none => cases ks <;> simp [installPerlLanguageServer, cpanPhase, cpanInvocation]
    | some p =>
      have hcs : cs = false := by
        rcases h with h | h
        · exact absurd h (by simp)
        · exact h
      subst hcs
      cases ks <;> simp [installPerlLanguageServer, cpanPhase, cpanInvocation]
  · intro msg hmsg
    cases cp with
    | none =>
      cases ks <;> simp_all [installPerlLanguageServer, cpanPhase]
    | some p =>
      cases cs <;> cases ks <;> simp_all [installPerlLanguageServer, cpanPhase]
  · intro h hks
    subst hks
    refine ⟨installErrorMessage (if sd = "" then se else sd), ?_, ?_, ?_, ?_⟩
    · cases cp with
      | none => simp [installPerlLanguageServer, cpanPhase]
      | some p =>
        have hcs : cs = false := by
          rcases h with h | h
          · exact absurd h (by simp)
          · exact h
        subst hcs
        simp [installPerlLanguageServer, cpanPhase]
    · exact (strContains_installErrorMessage _).1
    · exact (strContains_installErrorMessage _).2.1
    · exact (strContains_installErrorMessage _).2.2

/-- Witness for C6: both tools unavailable/failing; the error message
carries the cpan stderr and the remediation lines. -/
theorem C6_witness :
    ∃ msg, (installPerlLanguageServer "/usr/bin/perl"
        ⟨none, false, false, "cpan exploded", ""⟩).2 = Except.error msg ∧
      strContains msg
        (if ("cpan exploded" : String) = "" then "" else "cpan exploded") = true ∧
      strContains msg "Using cpanm: cpanm Perl::LanguageServer" = true ∧
      strContains msg "Using cpan: perl -MCPAN -e " = true :=
  (C6_install_fallback "/usr/bin/perl" ⟨none, false, false, "cpan exploded", ""⟩).2.2
    (Or.inl rfl) rfl

/-- C7 counterexample: the claim that the command builder starts no
process is false — even with the engine known available, the builder runs
the availability probe subprocess, so its invocation trace is nonempty. -/
theorem C7_counterexample :
    ¬ (∀ (perl_path : String) (env : CheckEnv), env.check_returncode_zero = true →
        (getPerlLanguageServerCommand perl_path env).1 = []) := by
  intro h
  have h2 := h "/usr/bin/perl" ⟨true, ⟨none, false, false, "", ""⟩⟩ rfl
  simp [getPerlLanguageServerCommand] at h2

/-- C7 (amended): given the toolchain path and a known-available engine,
the command builder is a pure function of its inputs whose only process
effect is the availability probe, and the command it returns has exactly
the shape `<runtime> -M<EnginePkg> -e <q><EnginePkg>::run()<q> -- --stdio
--version <pin>` with the stdio flag and the 2.6.0 version pin. -/
theorem C7_command_builder :
    ∀ (perl_path : String) (env : CheckEnv), env.check_returncode_zero = true →
      (getPerlLanguageServerCommand perl_path env).1 = [perlLSCheckInvocation perl_path] ∧
      (getPerlLanguageServerCommand perl_path env).2 =
        Except.ok (launchShape perl_path "Perl::LanguageServer" "2.6.0") ∧
      strContains (perlLSCommand perl_path) "--stdio" = true ∧
      strContains (perlLSCommand perl_path) "--version 2.6.0" = true := by
  intro perl_path env h
  refine ⟨by simp [getPerlLanguageServerCommand, h], ?_, ?_, ?_⟩
  · simp [getPerlLanguageServerCommand, h, perlLSCommand_eq_launchShape]
  · simp only [perlLSCommand]
    apply strContains_append_right
    decide
  · simp only [perlLSCommand]
    apply strContains_append_right
    decide

/-- Witness for C7 at a concrete toolchain path with the engine
available. -/
theorem C7_witness :
    (getPerlLanguageServerCommand "/usr/bin/perl" ⟨true, ⟨none, false, false, "", ""⟩⟩).1 =
      [perlLSCheckInvocation "/usr/bin/perl"] ∧
    (getPerlLanguageServerCommand "/usr/bin/perl" ⟨true, ⟨none, false, false, "", ""⟩⟩).2 =
      Except.ok (launchShape "/usr/bin/perl" "Perl::LanguageServer" "2.6.0") :=
  ⟨(C7_command_builder "/usr/bin/perl" ⟨true, ⟨none, false, false, "", ""⟩⟩ rfl).1,
   (C7_command_builder "/usr/bin/perl" ⟨true, ⟨none, false, false, "", ""⟩⟩ rfl).2.1⟩

/-- C8: the toolchain locator performs exactly one search (its only
effect), returns the path found on the search path, and otherwise fails
with the message enumerating at least three installation methods. -/
theorem C8_toolchain_locator :
    ∀ which : String → Option String,
      (findPerlExecutable which).1 = ["perl"] ∧
      (∀ p, which "perl" = some p → p.isEmpty = false →
        (findPerlExecutable which).2 = Except.ok p) ∧
      (which "perl" = none →
        (findPerlExecutable which).2 = Except.error perlNotFoundMessage) ∧
      3 ≤ installMethodCount perlNotFoundMessage := by
  intro which
  refine ⟨rfl, ?_, ?_, by decide⟩
  · intro p hp hne
    simp [findPerlExecutable, hp, hne]
  · intro hp
    simp [findPerlExecutable, hp]

/-- Witness for C8: a search path carrying perl, and an empty one. -/
theorem C8_witness :
    (findPerlExecutable (fun _ => some "/usr/bin/perl")).2 = Except.ok "/usr/bin/perl" ∧
    (findPerlExecutable (fun _ => none)).2 = Except.error perlNotFoundMessage :=
  ⟨(C8_toolchain_locator _).2.1 "/usr/bin/perl" rfl rfl,
   (C8_toolchain_locator _).2.2.1 rfl⟩

/-- C9: when the initialize response carries a `textDocumentSync` value
that is neither an integer nor a dictionary (a string, null, or a list),
the capability validation performs no check on it and the handshake
proceeds without error. -/
theorem C9_unchecked_textDocumentSync :
    ∀ (resp caps : List (String × JValue)) (v : JValue),
      alookup resp "capabilities" = some (JValue.jobj caps) →
      alookup caps "textDocumentSync" = some v →
      tdsUnchecked v = true →
      validateInitResponse resp = Except.ok () := by
  intro resp caps v h1 h2 h3
  cases v <;> simp_all [validateInitResponse, tdsUnchecked]

/-- Witness for C9 at a string-valued `textDocumentSync`. -/
theorem C9_witness :
    validateInitResponse
      [("capabilities", JValue.jobj [("textDocumentSync", JValue.jstr "incremental")])] =
      Except.ok () :=
  C9_unchecked_textDocumentSync _ [("textDocumentSync", JValue.jstr "incremental")]
    (JValue.jstr "incremental") rfl rfl rfl

/-- C10: `window_log_message` on a payload without a `message` field
treats the text as the empty string, completes, and leaves both readiness
flags unchanged; the same holds for any message text containing none of
the readiness keywords. -/
theorem C10_log_message_noop :
    ∀ (st : ReadinessFlags) (msg : List (String × String)),
      (alookup msg "message" = none →
        (alookup msg "message").getD "" = "" ∧ window_log_message st msg = st) ∧
      (∀ text, alookup msg "message" = some text →
        containsReadinessKeyword text = false → window_log_message st msg = st) := by
  intro st msg
  constructor
  · intro h
    have hk : containsReadinessKeyword "" = false := by decide
    exact ⟨by simp [h], by simp [window_log_message, h, hk]⟩
  · intro t h hf
    simp [window_log_message, h, hf]

/-- Witness for C10: a payload without a message field and one whose
text has no readiness keyword. -/
theorem C10_witness :
    window_log_message initFlags [("level", "3")] = initFlags ∧
    window_log_message initFlags [("message", "indexing files")] = initFlags :=
  ⟨((C10_log_message_noop initFlags [("level", "3")]).1 rfl).2,
   (C10_log_message_noop initFlags [("message", "indexing files")]).2 "indexing files" rfl
     (by decide)⟩

end PerlLS
